import Mathlib

/-
  Verification of the locale/path resolver and translation orchestrator of the
  noctylx/blog repository.

  Source files embedded:
  - src/pages/[...locale]/note/[...id]/graph.png.ts (the $utils/content module):
    extractLocaleFromId, extractPathFromId, isContentForLocale, generatePathParams
  - site.config.ts: the i18n configuration and the monolocale flag
  - scripts/lib/article-scanner.ts: Article, getTargetArticlePath, targetExists
  - scripts/lib/translator.ts: getLanguageName, generateSourceUrl,
    generateWarningBox, Translator.translateText, Translator.translateMarkdown,
    Translator.translateArticle
  - scripts/translate.ts: the per-target-locale translation loop

  The remote text-generation service is modelled by an `ApiResult` oracle per
  call: the call either threw (`err`) or returned a message whose `content`
  field is a possibly-null string.  File-system effects (mkdirSync,
  writeFileSync) are modelled as explicit event lists in the loop state.
-/

namespace Blog

/-- The i18n block of site.config.ts: a locale list with a designated default. -/
structure I18nConfig where
  locales : List String
  defaultLocale : String
deriving DecidableEq

/-- The concrete configuration of site.config.ts:
`locales: ["en", "zh-cn", "ja"], defaultLocale: "zh-cn"`. -/
def siteI18n : I18nConfig := { locales := ["en", "zh-cn", "ja"], defaultLocale := "zh-cn" }

/-- site.config.ts: `export const monolocale = Number(config.i18n.locales.length) === 1`. -/
def monolocale (conf : I18nConfig) : Bool := conf.locales.length == 1

/-- JavaScript `x || d` for a possibly-undefined string `x`:
`undefined` and `""` are falsy, any other string wins. -/
def jsOrString (x : Option String) (d : String) : String :=
  match x with
  | none => d
  | some s => if s = "" then d else s

/-- Splitter underlying `String.prototype.split` with a one-character
separator, by structural recursion on the character list.  `split` always
returns at least one (possibly empty) piece. -/
def splitChars (sep : Char) : List Char → List (List Char)
  | [] => [[]]
  | c :: cs =>
    let rest := splitChars sep cs
    if c = sep then [] :: rest
    else
      match rest with
      | [] => [[c]]
      | r :: rs => (c :: r) :: rs

/-- JavaScript `s.split(sep)` for a one-character separator string. -/
def jsSplit (s : String) (sep : Char) : List String :=
  (splitChars sep s.data).map String.mk

/-- JavaScript `Array.prototype.join(sep)`. -/
def jsJoin (sep : String) : List String → String
  | [] => ""
  | [s] => s
  | s :: s' :: rest => s ++ sep ++ jsJoin sep (s' :: rest)

/-- JavaScript `String.prototype.trim()` (whitespace stripped from both ends). -/
def jsTrim (s : String) : String :=
  String.mk (((s.data.dropWhile Char.isWhitespace).reverse.dropWhile Char.isWhitespace).reverse)

/-- $utils/content `extractLocaleFromId`:
`id.split("/").pop() || config.i18n.defaultLocale`.
`Array.prototype.pop` on the split result is `List.getLast?`. -/
def extractLocaleFromId (conf : I18nConfig) (id : String) : String :=
  jsOrString ((jsSplit id '/').getLast?) conf.defaultLocale

/-- $utils/content `extractPathFromId`:
`if (monolocale) return id; return id.split("/").slice(0, -1).join("/")`. -/
def extractPathFromId (conf : I18nConfig) (id : String) : String :=
  if monolocale conf then id
  else jsJoin "/" ((jsSplit id '/').dropLast)

/-- $utils/content `isContentForLocale`. -/
def isContentForLocale (conf : I18nConfig) (id locale : String) : Bool :=
  if monolocale conf then true
  else extractLocaleFromId conf id == locale

/-- The route-parameter object `{ locale: string | undefined; id: string }`. -/
structure RouteParams where
  locale : Option String
  id : String
deriving DecidableEq

/-- $utils/content `generatePathParams`. -/
def generatePathParams (conf : I18nConfig) (id : String) : RouteParams :=
  if monolocale conf then { locale := none, id := id }
  else
    let locale := extractLocaleFromId conf id
    let path := extractPathFromId conf id
    { locale := if locale = conf.defaultLocale then none else some locale, id := path }

-- Exception-monad renderings of the same functions, one step per JavaScript
-- primitive.  None of the primitives used by the resolver can throw:
-- String.prototype.split is total, Array.prototype.pop returns undefined on an
-- empty array instead of throwing, slice and join are total.

/-- `String.prototype.split(sep)`: total, never throws. -/
def jsSplitE (s : String) (sep : Char) : Except String (List String) :=
  Except.ok (jsSplit s sep)

/-- `Array.prototype.pop()`: returns the last element, or undefined on an empty
array; never throws. -/
def jsPopE (l : List String) : Except String (Option String) :=
  Except.ok l.getLast?

/-- `x || d` on a possibly-undefined string: total, never throws. -/
def jsOrE (x : Option String) (d : String) : Except String String :=
  Except.ok (jsOrString x d)

/-- `Array.prototype.slice(0, -1)`: total, never throws. -/
def jsSliceInitE (l : List String) : Except String (List String) :=
  Except.ok l.dropLast

/-- `Array.prototype.join(sep)`: total, never throws. -/
def jsJoinE (l : List String) (sep : String) : Except String String :=
  Except.ok (jsJoin sep l)

/-- `extractLocaleFromId` with each JavaScript primitive given its
exception-monad semantics. -/
def extractLocaleFromIdE (conf : I18nConfig) (id : String) : Except String String := do
  let segs ← jsSplitE id '/'
  let last ← jsPopE segs
  jsOrE last conf.defaultLocale

/-- `extractPathFromId` with exception-monad primitive semantics. -/
def extractPathFromIdE (conf : I18nConfig) (id : String) : Except String String :=
  if monolocale conf then Except.ok id
  else do
    let segs ← jsSplitE id '/'
    let init ← jsSliceInitE segs
    jsJoinE init "/"

/-- `isContentForLocale` with exception-monad primitive semantics. -/
def isContentForLocaleE (conf : I18nConfig) (id locale : String) : Except String Bool :=
  if monolocale conf then Except.ok true
  else do
    let l ← extractLocaleFromIdE conf id
    Except.ok (l == locale)

/-- `generatePathParams` with exception-monad primitive semantics. -/
def generatePathParamsE (conf : I18nConfig) (id : String) : Except String RouteParams :=
  if monolocale conf then Except.ok { locale := none, id := id }
  else do
    let locale ← extractLocaleFromIdE conf id
    let path ← extractPathFromIdE conf id
    Except.ok { locale := if locale = conf.defaultLocale then none else some locale, id := path }

-- Article scanner (scripts/lib/article-scanner.ts).

/-- `type ContentType = "note" | "jotting" | "preface"`. -/
inductive ContentType where
  | note
  | jotting
  | preface
deriving DecidableEq

/-- The string value of a `ContentType` member. -/
def ContentType.dir : ContentType → String
  | .note => "note"
  | .jotting => "jotting"
  | .preface => "preface"

/-- `CONTENT_DIR = path.join(__dirname, "../../src/content")`; the path is kept
relative to the repository root here. -/
def CONTENT_DIR : String := "src/content"

/-- `path.join` over simple segment names: joined with `/`. -/
def pathJoin : List String → String
  | [] => ""
  | [p] => p
  | p :: p' :: ps => p ++ "/" ++ pathJoin (p' :: ps)

/-- `interface Article`: `locales` is the set of locale codes that already have
a file, and `hasSubdirectory` maps a locale to `true` when that locale is
stored as `locale/index.md` (directory shape) rather than `locale.md` (flat). -/
structure Article where
  id : String
  type : ContentType
  locales : List String
  hasSubdirectory : List (String × Bool)

/-- `getTargetArticlePath(article, sourceLocale, targetLocale)`.  The source
calls `fs.mkdirSync(targetDir, { recursive: true })` in the directory-shape
branch; that effect is returned as the second component (the list of
directories created if absent). -/
def getTargetArticlePath (article : Article) (sourceLocale targetLocale : String) :
    String × List String :=
  let baseDir := pathJoin [CONTENT_DIR, article.type.dir, article.id]
  if (article.hasSubdirectory.lookup sourceLocale).getD false then
    let targetDir := pathJoin [baseDir, targetLocale]
    (pathJoin [targetDir, "index.md"], [targetDir])
  else
    (pathJoin [baseDir, targetLocale ++ ".md"], [])

/-- `targetExists(article, targetLocale)`: `article.locales.has(targetLocale)`. -/
def targetExists (article : Article) (targetLocale : String) : Bool :=
  article.locales.contains targetLocale

-- Translator (scripts/lib/translator.ts).

/-- `LANGUAGE_NAMES` record. -/
def LANGUAGE_NAMES : List (String × String) :=
  [("en", "English"), ("zh-cn", "中文"), ("ja", "日本語")]

/-- `getLanguageName(locale)`: `LANGUAGE_NAMES[locale] || locale`. -/
def getLanguageName (locale : String) : String :=
  jsOrString (LANGUAGE_NAMES.lookup locale) locale

/-- `generateSourceUrl(collection, articleId, sourceLocale)`: no locale prefix
when the source locale is the configured default, otherwise prefixed. -/
def generateSourceUrl (conf : I18nConfig) (collection articleId sourceLocale : String) : String :=
  if sourceLocale = conf.defaultLocale then
    "/" ++ collection ++ "/" ++ articleId
  else
    "/" ++ sourceLocale ++ "/" ++ collection ++ "/" ++ articleId

/-- The English disclaimer template of `generateWarningBox`, as a function of
the interpolated source-language name and source URL. -/
def enWarning (name url : String) : String :=
  "> [!NOTE]\n> This article is AI-translated from the [" ++ name ++ " version](" ++ url ++
    "). It may contain inaccuracies or hallucinations. Please refer to the original version for accuracy.\n\n"

/-- The zh-cn disclaimer template of `generateWarningBox`. -/
def zhWarning (name url : String) : String :=
  "> [!NOTE]\n> 此文章由 AI 从 [" ++ name ++ "版本](" ++ url ++
    ") 自动翻译，可能存在不准确之处或信息幻觉。请参考原文以确保准确性。\n\n"

/-- The ja disclaimer template of `generateWarningBox`. -/
def jaWarning (name url : String) : String :=
  "> [!NOTE]\n> この記事は [" ++ name ++ "版](" ++ url ++
    ") から AI 翻訳されたものです。不正確な情報や幻覚が含まれる可能性があります。正確な情報は原文をご参照ください。\n\n"

/-- `generateWarningBox(collection, articleId, sourceLocale, targetLocale)`:
builds the three-template record and returns
`warnings[targetLocale] || warnings.en`. -/
def generateWarningBox (conf : I18nConfig) (collection articleId sourceLocale targetLocale : String) :
    String :=
  let sourceUrl := generateSourceUrl conf collection articleId sourceLocale
  let name := getLanguageName sourceLocale
  let warnings : List (String × String) :=
    [("en", enWarning name sourceUrl), ("zh-cn", zhWarning name sourceUrl),
      ("ja", jaWarning name sourceUrl)]
  jsOrString (warnings.lookup targetLocale) (enWarning name sourceUrl)

/-- Outcome of one chat-completion call: the call threw, or it returned a
message whose `content` field is a string or null. -/
inductive ApiResult where
  | err
  | content (c : Option String)
deriving DecidableEq

/-- True when `content?.trim()` is undefined or empty, or the call threw: the
cases in which `translateText` falls back and `translateMarkdown` throws. -/
def fallsBack : ApiResult → Bool
  | .err => true
  | .content none => true
  | .content (some s) => if jsTrim s = "" then true else false

/-- `Translator.translateText(text, targetLocale)` given the service outcome
`r`: returns `response...content?.trim() || text`, and returns `text` when the
call threw (the catch branch). -/
def translateText (r : ApiResult) (text targetLocale : String) : String :=
  match r with
  | .err => text
  | .content none => text
  | .content (some s) => if jsTrim s = "" then text else jsTrim s

/-- `Translator.translateMarkdown(content, sourceLocale, targetLocale)` given
the service outcome `r`: rethrows a service error, throws
`"Empty translation response"` when `content?.trim()` is undefined or empty,
and otherwise returns the trimmed translation. -/
def translateMarkdown (r : ApiResult) (content sourceLocale targetLocale : String) :
    Except String String :=
  match r with
  | .err => Except.error "Translation service error"
  | .content none => Except.error "Empty translation response"
  | .content (some s) =>
    if jsTrim s = "" then Except.error "Empty translation response"
    else Except.ok (jsTrim s)

/-- Frontmatter mapping of a content file: key to (string) value, absent keys
mapping to none. -/
abbrev Frontmatter := String → Option String

/-- JavaScript object property assignment `m[k] = v`. -/
def objSet (m : Frontmatter) (k v : String) : Frontmatter :=
  fun k' => if k' = k then some v else m k'

/-- Truthiness of a possibly-undefined string-valued property. -/
def truthyOpt (x : Option String) : Bool :=
  match x with
  | none => false
  | some s => s ≠ ""

/-- A content file as parsed by `matter(...)`: frontmatter data plus body. -/
structure MatterFile where
  data : Frontmatter
  content : String

/-- The service outcomes of the up-to-three calls made for one target locale. -/
structure TranslationApi where
  titleResult : ApiResult
  descriptionResult : ApiResult
  bodyResult : ApiResult

/-- `Translator.translateArticle(sourceContent, collection, articleId,
sourceLocale, targetLocale)` on the parsed source file `src`: spreads the
source frontmatter, translates `title` and `description` when truthy
(best-effort), translates the body (fatal on failure), prepends the warning
box, and stringifies. -/
def translateArticle (api : TranslationApi) (conf : I18nConfig) (src : MatterFile)
    (collection articleId sourceLocale targetLocale : String) : Except String MatterFile :=
  let data := src.data
  let translatedData0 := data
  let translatedData1 :=
    if truthyOpt (data "title") then
      objSet translatedData0 "title"
        (translateText api.titleResult ((data "title").getD "") targetLocale)
    else translatedData0
  let translatedData2 :=
    if truthyOpt (data "description") then
      objSet translatedData1 "description"
        (translateText api.descriptionResult ((data "description").getD "") targetLocale)
    else translatedData1
  match translateMarkdown api.bodyResult src.content sourceLocale targetLocale with
  | Except.error e => Except.error e
  | Except.ok translatedContent =>
    let warningBox := generateWarningBox conf collection articleId sourceLocale targetLocale
    Except.ok { data := translatedData2, content := warningBox ++ translatedContent }

-- Translation loop (scripts/translate.ts, the per-target-locale for loop).

/-- One `fs.writeFileSync(targetPath, translatedContent)` event, tagged with
the target locale of the loop iteration that performed it. -/
structure WriteEvent where
  locale : String
  path : String
  file : MatterFile

/-- Observable state accumulated by the translation loop: `success`/`failed`
are the `stats` lists, `skipped` records the already-exists warnings, `calls`
records the locales for which `translateArticle` was invoked, `writes` the file
writes and `dirs` the directories created. -/
structure LoopState where
  success : List String
  failed : List String
  skipped : List String
  calls : List String
  writes : List WriteEvent
  dirs : List String

/-- The loop state before the first iteration. -/
def initialLoopState : LoopState :=
  { success := [], failed := [], skipped := [], calls := [], writes := [], dirs := [] }

/-- The fixed data of one run of the loop: the per-locale service outcomes, the
configuration, the scanned article, the parsed source file, the collection name
and the chosen source locale. -/
structure LoopEnv where
  api : String → TranslationApi
  conf : I18nConfig
  article : Article
  src : MatterFile
  collection : String
  sourceLocale : String

/-- The `translator.translateArticle(...)` call of one loop iteration. -/
def translateArticleFor (env : LoopEnv) (targetLocale : String) : Except String MatterFile :=
  translateArticle (env.api targetLocale) env.conf env.src env.collection env.article.id
    env.sourceLocale targetLocale

/-- One iteration of the `for (const targetLocale of targetLocales)` loop:
skip (with a warning) when the target already exists, otherwise translate;
on error record the locale as failed, on success write the file at
`getTargetArticlePath` and record it as successful. -/
def processTargetLocale (env : LoopEnv) (st : LoopState) (targetLocale : String) : LoopState :=
  if targetExists env.article targetLocale then
    { st with skipped := st.skipped ++ [targetLocale] }
  else
    match translateArticleFor env targetLocale with
    | Except.error _ =>
      { st with calls := st.calls ++ [targetLocale], failed := st.failed ++ [targetLocale] }
    | Except.ok out =>
      let target := getTargetArticlePath env.article env.sourceLocale targetLocale
      { st with
          calls := st.calls ++ [targetLocale],
          writes := st.writes ++ [{ locale := targetLocale, path := target.1, file := out }],
          dirs := st.dirs ++ target.2,
          success := st.success ++ [targetLocale] }

/-- The whole translation loop over the requested target locales. -/
def runTranslationLoop (env : LoopEnv) (targets : List String) : LoopState :=
  targets.foldl (processTargetLocale env) initialLoopState

/-- Whether an `Except` result is a success. -/
def isOkE {ε α : Type} : Except ε α → Bool
  | Except.ok _ => true
  | Except.error _ => false

/-- Boolean: this loop iteration skips its locale (already exists). -/
def skipsLocale (env : LoopEnv) (u : String) : Bool :=
  targetExists env.article u

/-- Boolean: this loop iteration attempts and fails its locale. -/
def failsLocale (env : LoopEnv) (u : String) : Bool :=
  !targetExists env.article u && !isOkE (translateArticleFor env u)

/-- Boolean: this loop iteration attempts and succeeds its locale. -/
def succeedsLocale (env : LoopEnv) (u : String) : Bool :=
  !targetExists env.article u && isOkE (translateArticleFor env u)

-- Concrete instances used by witnesses.

/-- Article `"demo"` whose only locale `zh-cn` is stored flat. -/
def demoArticle : Article :=
  { id := "demo", type := ContentType.note, locales := ["zh-cn"],
    hasSubdirectory := [("zh-cn", false)] }

/-- A parsed source file with a title and a custom `tags` key. -/
def demoSrc : MatterFile :=
  { data := fun k =>
      if k = "title" then some "标题"
      else if k = "tags" then some "astro"
      else none,
    content := "正文内容" }

/-- Per-target-locale service outcomes: every call for `ja` throws, calls for
other locales succeed. -/
def demoApi : String → TranslationApi := fun u =>
  if u = "ja" then
    { titleResult := ApiResult.err, descriptionResult := ApiResult.err,
      bodyResult := ApiResult.err }
  else
    { titleResult := ApiResult.content (some "Title"),
      descriptionResult := ApiResult.content none,
      bodyResult := ApiResult.content (some "Translated body") }

/-- A loop environment over `demoArticle` translating from `zh-cn`. -/
def demoEnv : LoopEnv :=
  { api := demoApi, conf := siteI18n, article := demoArticle, src := demoSrc,
    collection := "note", sourceLocale := "zh-cn" }

/-- Service outcomes where title and description fail but the body succeeds. -/
def bestEffortApi : TranslationApi :=
  { titleResult := ApiResult.err, descriptionResult := ApiResult.content none,
    bodyResult := ApiResult.content (some "corps traduit") }

end Blog

namespace Blog

-- Helper lemmas.

theorem objSet_ne (m : Frontmatter) (k v k' : String) (h : k' ≠ k) : objSet m k v k' = m k' := by
  simp [objSet, h]

theorem translateText_fallback (r : ApiResult) (h : fallsBack r = true) (text tl : String) :
    translateText r text tl = text := by
  cases r with
  | err => rfl
  | content co =>
    cases co with
    | none => rfl
    | some s =>
      have hs : jsTrim s = "" := by
        by_contra hne
        simp [fallsBack, hne] at h
      simp [translateText, hs]

theorem translateMarkdown_error_of_fallsBack (r : ApiResult) (c sl tl : String)
    (h : fallsBack r = true) : ∃ e, translateMarkdown r c sl tl = Except.error e := by
  cases r with
  | err => exact ⟨"Translation service error", rfl⟩
  | content co =>
    cases co with
    | none => exact ⟨"Empty translation response", rfl⟩
    | some s =>
      have hs : jsTrim s = "" := by
        by_contra hne
        simp [fallsBack, hne] at h
      exact ⟨"Empty translation response", by simp [translateMarkdown, hs]⟩

theorem isOkE_translateArticle (api : TranslationApi) (conf : I18nConfig) (src : MatterFile)
    (c a sl tl : String) :
    isOkE (translateArticle api conf src c a sl tl) = !fallsBack api.bodyResult := by
  cases hr : api.bodyResult with
  | err => simp [translateArticle, translateMarkdown, fallsBack, hr, isOkE]
  | content co =>
    cases co with
    | none => simp [translateArticle, translateMarkdown, fallsBack, hr, isOkE]
    | some s =>
      by_cases hs : jsTrim s = "" <;>
        simp [translateArticle, translateMarkdown, fallsBack, hr, hs, isOkE]

theorem isOkE_translateArticleFor (env : LoopEnv) (u : String) :
    isOkE (translateArticleFor env u) = !fallsBack ((env.api u).bodyResult) := by
  simp [translateArticleFor, isOkE_translateArticle]

theorem translateArticle_data (api : TranslationApi) (conf : I18nConfig) (src : MatterFile)
    (c a sl tl k : String) :
    ∀ out, translateArticle api conf src c a sl tl = Except.ok out →
      out.data k =
        if k = "description" ∧ truthyOpt (src.data "description") then
          some (translateText api.descriptionResult ((src.data "description").getD "") tl)
        else if k = "title" ∧ truthyOpt (src.data "title") then
          some (translateText api.titleResult ((src.data "title").getD "") tl)
        else src.data k := by
  intro out h
  unfold translateArticle at h
  cases hm : translateMarkdown api.bodyResult src.content sl tl with
  | error e =>
    rw [hm] at h
    exact absurd h (by simp)
  | ok tr =>
    rw [hm] at h
    simp only [Except.ok.injEq] at h
    subst h
    by_cases hd : k = "description"
    · subst hd
      by_cases h2 : truthyOpt (src.data "description") = true <;>
        by_cases h1 : truthyOpt (src.data "title") = true <;>
          simp [h1, h2, objSet]
    · by_cases ht : k = "title"
      · subst ht
        by_cases h2 : truthyOpt (src.data "description") = true <;>
          by_cases h1 : truthyOpt (src.data "title") = true <;>
            simp [h1, h2, objSet]
      · by_cases h2 : truthyOpt (src.data "description") = true <;>
          by_cases h1 : truthyOpt (src.data "title") = true <;>
            simp [h1, h2, objSet, hd, ht]

theorem exists_ok_of_not_fallsBack (api : TranslationApi) (conf : I18nConfig) (src : MatterFile)
    (c a sl tl : String) (hB : fallsBack api.bodyResult = false) :
    ∃ out, translateArticle api conf src c a sl tl = Except.ok out := by
  have h := isOkE_translateArticle api conf src c a sl tl
  rw [hB] at h
  cases htr : translateArticle api conf src c a sl tl with
  | error e => rw [htr] at h; simp [isOkE] at h
  | ok out => exact ⟨out, rfl⟩

theorem step_skipped (env : LoopEnv) (st : LoopState) (u : String) :
    (processTargetLocale env st u).skipped =
      st.skipped ++ (if skipsLocale env u then [u] else []) := by
  cases hex : targetExists env.article u with
  | true => simp [processTargetLocale, skipsLocale, hex]
  | false =>
    cases htr : translateArticleFor env u with
    | error e => simp [processTargetLocale, skipsLocale, hex, htr]
    | ok out => simp [processTargetLocale, skipsLocale, hex, htr]

theorem step_failed (env : LoopEnv) (st : LoopState) (u : String) :
    (processTargetLocale env st u).failed =
      st.failed ++ (if failsLocale env u then [u] else []) := by
  cases hex : targetExists env.article u with
  | true => simp [processTargetLocale, failsLocale, hex]
  | false =>
    cases htr : translateArticleFor env u with
    | error e => simp [processTargetLocale, failsLocale, isOkE, hex, htr]
    | ok out => simp [processTargetLocale, failsLocale, isOkE, hex, htr]

theorem step_success (env : LoopEnv) (st : LoopState) (u : String) :
    (processTargetLocale env st u).success =
      st.success ++ (if succeedsLocale env u then [u] else []) := by
  cases hex : targetExists env.article u with
  | true => simp [processTargetLocale, succeedsLocale, hex]
  | false =>
    cases htr : translateArticleFor env u with
    | error e => simp [processTargetLocale, succeedsLocale, isOkE, hex, htr]
    | ok out => simp [processTargetLocale, succeedsLocale, isOkE, hex, htr]

theorem step_calls (env : LoopEnv) (st : LoopState) (u : String) :
    (processTargetLocale env st u).calls =
      st.calls ++ (if skipsLocale env u then [] else [u]) := by
  cases hex : targetExists env.article u with
  | true => simp [processTargetLocale, skipsLocale, hex]
  | false =>
    cases htr : translateArticleFor env u with
    | error e => simp [processTargetLocale, skipsLocale, hex, htr]
    | ok out => simp [processTargetLocale, skipsLocale, hex, htr]

theorem step_writes (env : LoopEnv) (st : LoopState) (u : String) :
    (processTargetLocale env st u).writes.map WriteEvent.locale =
      st.writes.map WriteEvent.locale ++ (if succeedsLocale env u then [u] else []) := by
  cases hex : targetExists env.article u with
  | true => simp [processTargetLocale, succeedsLocale, hex]
  | false =>
    cases htr : translateArticleFor env u with
    | error e => simp [processTargetLocale, succeedsLocale, isOkE, hex, htr]
    | ok out => simp [processTargetLocale, succeedsLocale, isOkE, hex, htr]

theorem loop_skipped (env : LoopEnv) (ts : List String) (st : LoopState) :
    (ts.foldl (processTargetLocale env) st).skipped =
      st.skipped ++ ts.filter (skipsLocale env) := by
  induction ts generalizing st with
  | nil => simp
  | cons u us ih =>
    rw [List.foldl_cons, ih, step_skipped, List.filter_cons]
    cases h : skipsLocale env u <;> simp [h]

theorem loop_failed (env : LoopEnv) (ts : List String) (st : LoopState) :
    (ts.foldl (processTargetLocale env) st).failed =
      st.failed ++ ts.filter (failsLocale env) := by
  induction ts generalizing st with
  | nil => simp
  | cons u us ih =>
    rw [List.foldl_cons, ih, step_failed, List.filter_cons]
    cases h : failsLocale env u <;> simp [h]

theorem loop_success (env : LoopEnv) (ts : List String) (st : LoopState) :
    (ts.foldl (processTargetLocale env) st).success =
      st.success ++ ts.filter (succeedsLocale env) := by
  induction ts generalizing st with
  | nil => simp
  | cons u us ih =>
    rw [List.foldl_cons, ih, step_success, List.filter_cons]
    cases h : succeedsLocale env u <;> simp [h]

theorem loop_calls (env : LoopEnv) (ts : List String) (st : LoopState) :
    (ts.foldl (processTargetLocale env) st).calls =
      st.calls ++ ts.filter (fun u => !skipsLocale env u) := by
  induction ts generalizing st with
  | nil => simp
  | cons u us ih =>
    rw [List.foldl_cons, ih, step_calls, List.filter_cons]
    cases h : skipsLocale env u <;> simp [h]

theorem loop_writes (env : LoopEnv) (ts : List String) (st : LoopState) :
    (ts.foldl (processTargetLocale env) st).writes.map WriteEvent.locale =
      st.writes.map WriteEvent.locale ++ ts.filter (succeedsLocale env) := by
  induction ts generalizing st with
  | nil => simp
  | cons u us ih =>
    rw [List.foldl_cons, ih, step_writes, List.filter_cons]
    cases h : succeedsLocale env u <;> simp [h]

theorem run_skipped (env : LoopEnv) (ts : List String) :
    (runTranslationLoop env ts).skipped = ts.filter (skipsLocale env) := by
  simp [runTranslationLoop, loop_skipped, initialLoopState]

theorem run_failed (env : LoopEnv) (ts : List String) :
    (runTranslationLoop env ts).failed = ts.filter (failsLocale env) := by
  simp [runTranslationLoop, loop_failed, initialLoopState]

theorem run_success (env : LoopEnv) (ts : List String) :
    (runTranslationLoop env ts).success = ts.filter (succeedsLocale env) := by
  simp [runTranslationLoop, loop_success, initialLoopState]

theorem run_calls (env : LoopEnv) (ts : List String) :
    (runTranslationLoop env ts).calls = ts.filter (fun u => !skipsLocale env u) := by
  simp [runTranslationLoop, loop_calls, initialLoopState]

theorem run_writes (env : LoopEnv) (ts : List String) :
    (runTranslationLoop env ts).writes.map WriteEvent.locale = ts.filter (succeedsLocale env) := by
  simp [runTranslationLoop, loop_writes, initialLoopState]

theorem enWarning_ne_empty (name url : String) : enWarning name url ≠ "" := by
  intro h
  have h2 := congrArg String.data h
  simp [enWarning, String.data_append] at h2

theorem zhWarning_ne_empty (name url : String) : zhWarning name url ≠ "" := by
  intro h
  have h2 := congrArg String.data h
  simp [zhWarning, String.data_append] at h2

theorem jaWarning_ne_empty (name url : String) : jaWarning name url ≠ "" := by
  intro h
  have h2 := congrArg String.data h
  simp [jaWarning, String.data_append] at h2

-- Claim theorems.

/-- C1: for every article and target locale, `getTargetArticlePath` mirrors the
storage shape of the article's source locale: if the source locale is
directory-shaped the result is `<article>/<targetLocale>/index.md` and that
directory is created if absent, otherwise the result is the flat path
`<article>/<targetLocale>.md` with no directory created. -/
theorem C1_target_path_mirrors_source_shape (article : Article)
    (sourceLocale targetLocale : String) :
    getTargetArticlePath article sourceLocale targetLocale =
      (if (article.hasSubdirectory.lookup sourceLocale).getD false then
        (pathJoin [CONTENT_DIR, article.type.dir, article.id, targetLocale, "index.md"],
          [pathJoin [CONTENT_DIR, article.type.dir, article.id, targetLocale]])
      else
        (pathJoin [CONTENT_DIR, article.type.dir, article.id, targetLocale ++ ".md"], [])) := by
  by_cases h : (article.hasSubdirectory.lookup sourceLocale).getD false = true
  · simp [getTargetArticlePath, h, pathJoin, String.append_assoc]
  · simp [getTargetArticlePath, h, pathJoin, String.append_assoc]

/-- C2: for every target locale whose body translation fails or comes back
empty, `translateMarkdown` throws, no file is written for that locale, the
locale is recorded in the failure list, and every other requested target locale
is still processed independently (failing ones are recorded as failed,
succeeding ones as successful). -/
theorem C2_body_failure_is_isolated (env : LoopEnv) (targets : List String) (t : String)
    (ht : t ∈ targets)
    (hex : targetExists env.article t = false)
    (hb : fallsBack ((env.api t).bodyResult) = true) :
    (∃ e, translateMarkdown ((env.api t).bodyResult) env.src.content env.sourceLocale t =
      Except.error e)
    ∧ t ∈ (runTranslationLoop env targets).failed
    ∧ t ∉ (runTranslationLoop env targets).writes.map WriteEvent.locale
    ∧ ∀ u ∈ targets, targetExists env.article u = false →
        (fallsBack ((env.api u).bodyResult) = true →
          u ∈ (runTranslationLoop env targets).failed)
        ∧ (fallsBack ((env.api u).bodyResult) = false →
          u ∈ (runTranslationLoop env targets).success) := by
  refine ⟨translateMarkdown_error_of_fallsBack _ _ _ _ hb, ?_, ?_, ?_⟩
  · rw [run_failed]
    exact List.mem_filter.mpr ⟨ht, by simp [failsLocale, hex, isOkE_translateArticleFor, hb]⟩
  · rw [run_writes]
    intro hmem
    have h2 := (List.mem_filter.mp hmem).2
    simp [succeedsLocale, hex, isOkE_translateArticleFor, hb] at h2
  · intro u hu hexu
    constructor
    · intro hbu
      rw [run_failed]
      exact List.mem_filter.mpr ⟨hu, by simp [failsLocale, hexu, isOkE_translateArticleFor, hbu]⟩
    · intro hbu
      rw [run_success]
      exact List.mem_filter.mpr
        ⟨hu, by simp [succeedsLocale, hexu, isOkE_translateArticleFor, hbu]⟩

/-- C2 witness: in the demo environment every service call for `ja` throws, so
translating `["ja", "en"]` records `ja` as failed with no write, while `en`
still succeeds. -/
theorem C2_body_failure_is_isolated_witness :
    ("ja" ∈ ["ja", "en"] ∧ targetExists demoEnv.article "ja" = false
      ∧ fallsBack ((demoEnv.api "ja").bodyResult) = true)
    ∧ ((∃ e, translateMarkdown ((demoEnv.api "ja").bodyResult) demoEnv.src.content
        demoEnv.sourceLocale "ja" = Except.error e)
      ∧ "ja" ∈ (runTranslationLoop demoEnv ["ja", "en"]).failed
      ∧ "ja" ∉ (runTranslationLoop demoEnv ["ja", "en"]).writes.map WriteEvent.locale
      ∧ ∀ u ∈ ["ja", "en"], targetExists demoEnv.article u = false →
          (fallsBack ((demoEnv.api u).bodyResult) = true →
            u ∈ (runTranslationLoop demoEnv ["ja", "en"]).failed)
          ∧ (fallsBack ((demoEnv.api u).bodyResult) = false →
            u ∈ (runTranslationLoop demoEnv ["ja", "en"]).success)) :=
  ⟨⟨by decide, by decide, by decide⟩,
    C2_body_failure_is_isolated demoEnv ["ja", "en"] "ja" (by decide) (by decide) (by decide)⟩

/-- C3: when a title or description translation call throws or returns an
empty response, `translateText` returns the original input text, so the output
frontmatter keeps the source title and description, and (the body translation
succeeding) the per-locale operation still succeeds. -/
theorem C3_title_description_best_effort (api : TranslationApi) (conf : I18nConfig)
    (src : MatterFile) (collection articleId sourceLocale targetLocale : String)
    (hT : fallsBack api.titleResult = true)
    (hD : fallsBack api.descriptionResult = true)
    (hB : fallsBack api.bodyResult = false) :
    (∀ text tl, translateText api.titleResult text tl = text)
    ∧ (∀ text tl, translateText api.descriptionResult text tl = text)
    ∧ ∃ out, translateArticle api conf src collection articleId sourceLocale targetLocale =
        Except.ok out
      ∧ out.data "title" = src.data "title"
      ∧ out.data "description" = src.data "description" := by
  refine ⟨fun text tl => translateText_fallback _ hT text tl,
    fun text tl => translateText_fallback _ hD text tl, ?_⟩
  obtain ⟨out, hout⟩ :=
    exists_ok_of_not_fallsBack api conf src collection articleId sourceLocale targetLocale hB
  refine ⟨out, hout, ?_, ?_⟩
  · have hd := translateArticle_data api conf src collection articleId sourceLocale targetLocale
      "title" out hout
    by_cases h1 : truthyOpt (src.data "title") = true
    · rw [hd]
      cases hdt : src.data "title" with
      | none => simp [truthyOpt, hdt] at h1
      | some s0 =>
        simp [h1, translateText_fallback _ hT, hdt]
    · rw [hd]
      simp [h1]
  · have hd := translateArticle_data api conf src collection articleId sourceLocale targetLocale
      "description" out hout
    by_cases h2 : truthyOpt (src.data "description") = true
    · rw [hd]
      cases hdt : src.data "description" with
      | none => simp [truthyOpt, hdt] at h2
      | some s0 =>
        simp [h2, translateText_fallback _ hD, hdt]
    · rw [hd]
      simp [h2]

/-- C3 witness: with a throwing title call, a null description response and a
successful body call, the translated file keeps the source title and
description and the operation succeeds. -/
theorem C3_title_description_best_effort_witness :
    (fallsBack bestEffortApi.titleResult = true
      ∧ fallsBack bestEffortApi.descriptionResult = true
      ∧ fallsBack bestEffortApi.bodyResult = false)
    ∧ ((∀ text tl, translateText bestEffortApi.titleResult text tl = text)
      ∧ (∀ text tl, translateText bestEffortApi.descriptionResult text tl = text)
      ∧ ∃ out, translateArticle bestEffortApi siteI18n demoSrc "note" "demo" "zh-cn" "en" =
          Except.ok out
        ∧ out.data "title" = demoSrc.data "title"
        ∧ out.data "description" = demoSrc.data "description") :=
  ⟨⟨by decide, by decide, by decide⟩,
    C3_title_description_best_effort bestEffortApi siteI18n demoSrc "note" "demo" "zh-cn" "en"
      (by decide) (by decide) (by decide)⟩

/-- C4: a target locale already present in the article's locale set is skipped
with a warning: no file is written for it, no translation call is made for it,
and it is not recorded in the failure list. -/
theorem C4_existing_locale_skipped (env : LoopEnv) (targets : List String) (t : String)
    (hex : targetExists env.article t = true) :
    (t ∈ targets → t ∈ (runTranslationLoop env targets).skipped)
    ∧ t ∉ (runTranslationLoop env targets).writes.map WriteEvent.locale
    ∧ t ∉ (runTranslationLoop env targets).calls
    ∧ t ∉ (runTranslationLoop env targets).failed := by
  refine ⟨?_, ?_, ?_, ?_⟩
  · intro ht
    rw [run_skipped]
    exact List.mem_filter.mpr ⟨ht, by simp [skipsLocale, hex]⟩
  · rw [run_writes]
    intro hmem
    have h2 := (List.mem_filter.mp hmem).2
    simp [succeedsLocale, hex] at h2
  · rw [run_calls]
    intro hmem
    have h2 := (List.mem_filter.mp hmem).2
    simp [skipsLocale, hex] at h2
  · rw [run_failed]
    intro hmem
    have h2 := (List.mem_filter.mp hmem).2
    simp [failsLocale, hex] at h2

/-- C4 witness: requesting `zh-cn` (which already exists on the demo article)
skips it: it lands in the skip list only. -/
theorem C4_existing_locale_skipped_witness :
    targetExists demoEnv.article "zh-cn" = true
    ∧ (("zh-cn" ∈ ["zh-cn", "ja"] →
        "zh-cn" ∈ (runTranslationLoop demoEnv ["zh-cn", "ja"]).skipped)
      ∧ "zh-cn" ∉ (runTranslationLoop demoEnv ["zh-cn", "ja"]).writes.map WriteEvent.locale
      ∧ "zh-cn" ∉ (runTranslationLoop demoEnv ["zh-cn", "ja"]).calls
      ∧ "zh-cn" ∉ (runTranslationLoop demoEnv ["zh-cn", "ja"]).failed) :=
  ⟨by decide, C4_existing_locale_skipped demoEnv ["zh-cn", "ja"] "zh-cn" (by decide)⟩

/-- C5 counterexample: the identifier `"a/"` has two separator-delimited
segments and its final segment is `""`, but `extractLocaleFromId` returns the
configured default locale `"zh-cn"`, not the final segment. -/
theorem C5_counterexample :
    monolocale siteI18n = false
    ∧ jsSplit "a/" '/' = ["a", ""]
    ∧ 2 ≤ (jsSplit "a/" '/').length
    ∧ (jsSplit "a/" '/').getLast? = some ""
    ∧ extractLocaleFromId siteI18n "a/" = "zh-cn"
    ∧ ¬ extractLocaleFromId siteI18n "a/" = "" := by
  decide

/-- C5 (amended): in multi-locale mode, for every identifier with at least two
separator-delimited segments whose final segment is nonempty,
`extractLocaleFromId` returns the final segment, `extractPathFromId` returns
the identifier with its final segment removed (segments rejoined with the same
separator), and `generatePathParams` returns that path together with that
locale, the locale field being absent exactly when the final segment equals the
configured default locale. -/
theorem C5_multi_locale_extraction (conf : I18nConfig) (id lastSeg : String)
    (hm : monolocale conf = false)
    (hlen : 2 ≤ (jsSplit id '/').length)
    (hlast : (jsSplit id '/').getLast? = some lastSeg)
    (hne : lastSeg ≠ "") :
    extractLocaleFromId conf id = lastSeg
    ∧ extractPathFromId conf id = jsJoin "/" ((jsSplit id '/').dropLast)
    ∧ generatePathParams conf id =
        { locale := if lastSeg = conf.defaultLocale then none else some lastSeg,
          id := jsJoin "/" ((jsSplit id '/').dropLast) } := by
  have hloc : extractLocaleFromId conf id = lastSeg := by
    simp [extractLocaleFromId, hlast, jsOrString, hne]
  refine ⟨hloc, by simp [extractPathFromId, hm], ?_⟩
  simp [generatePathParams, hm, hloc, extractPathFromId]

/-- C5 witness: `"post/en"` in the site configuration: locale `"en"`, path
`"post"`, explicit locale since `"en"` is not the default. -/
theorem C5_multi_locale_extraction_witness :
    (monolocale siteI18n = false
      ∧ 2 ≤ (jsSplit "post/en" '/').length
      ∧ (jsSplit "post/en" '/').getLast? = some "en"
      ∧ ("en" : String) ≠ "")
    ∧ (extractLocaleFromId siteI18n "post/en" = "en"
      ∧ extractPathFromId siteI18n "post/en" = jsJoin "/" ((jsSplit "post/en" '/').dropLast)
      ∧ generatePathParams siteI18n "post/en" =
          { locale := if ("en" : String) = siteI18n.defaultLocale then none else some "en",
            id := jsJoin "/" ((jsSplit "post/en" '/').dropLast) }) :=
  ⟨⟨by decide, by decide, by decide, by decide⟩,
    C5_multi_locale_extraction siteI18n "post/en" "en" (by decide) (by decide) (by decide)
      (by decide)⟩

/-- C6: in single-locale mode `generatePathParams` returns an absent locale and
the identifier unchanged, and `extractPathFromId` returns the identifier
unchanged. -/
theorem C6_monolocale_identity (conf : I18nConfig) (id : String)
    (h : monolocale conf = true) :
    generatePathParams conf id = { locale := none, id := id }
    ∧ extractPathFromId conf id = id := by
  exact ⟨by simp [generatePathParams, h], by simp [extractPathFromId, h]⟩

/-- C6 witness: a one-locale configuration routes `"a/b"` unchanged with no
locale. -/
theorem C6_monolocale_identity_witness :
    monolocale { locales := ["en"], defaultLocale := "en" } = true
    ∧ (generatePathParams { locales := ["en"], defaultLocale := "en" } "a/b" =
        { locale := none, id := "a/b" }
      ∧ extractPathFromId { locales := ["en"], defaultLocale := "en" } "a/b" = "a/b") :=
  ⟨by decide, C6_monolocale_identity { locales := ["en"], defaultLocale := "en" } "a/b"
    (by decide)⟩

/-- C7: none of the four resolver functions can throw: each step-by-step
exception-monad rendering returns `Except.ok` of the pure value for every input
string and both locale modes, and `extractLocaleFromId` falls back to the
configured default locale on an identifier with no segments. -/
theorem C7_resolver_never_throws (conf : I18nConfig) (id locale : String) :
    extractLocaleFromIdE conf id = Except.ok (extractLocaleFromId conf id)
    ∧ extractPathFromIdE conf id = Except.ok (extractPathFromId conf id)
    ∧ isContentForLocaleE conf id locale = Except.ok (isContentForLocale conf id locale)
    ∧ generatePathParamsE conf id = Except.ok (generatePathParams conf id)
    ∧ extractLocaleFromId conf "" = conf.defaultLocale := by
  refine ⟨rfl, ?_, ?_, ?_, rfl⟩
  · unfold extractPathFromIdE extractPathFromId
    cases hm : monolocale conf <;> rfl
  · unfold isContentForLocaleE isContentForLocale
    cases hm : monolocale conf <;> rfl
  · unfold generatePathParamsE generatePathParams extractPathFromIdE extractPathFromId
    cases hm : monolocale conf <;> rfl

/-- C8: every frontmatter key other than `title` and `description` is carried
unchanged from the source file into the frontmatter of a successfully
translated file. -/
theorem C8_frontmatter_frame (api : TranslationApi) (conf : I18nConfig) (src : MatterFile)
    (collection articleId sourceLocale targetLocale k : String)
    (hk1 : k ≠ "title") (hk2 : k ≠ "description") :
    ∀ out, translateArticle api conf src collection articleId sourceLocale targetLocale =
        Except.ok out →
      out.data k = src.data k := by
  intro out hout
  have hd := translateArticle_data api conf src collection articleId sourceLocale targetLocale
    k out hout
  rw [hd]
  simp [hk1, hk2]

/-- C8 witness: the `tags` key of the demo source survives translation
unchanged. -/
theorem C8_frontmatter_frame_witness :
    (("tags" : String) ≠ "title" ∧ ("tags" : String) ≠ "description")
    ∧ (∀ out, translateArticle bestEffortApi siteI18n demoSrc "note" "demo" "zh-cn" "en" =
        Except.ok out →
      out.data "tags" = demoSrc.data "tags") :=
  ⟨⟨by decide, by decide⟩,
    C8_frontmatter_frame bestEffortApi siteI18n demoSrc "note" "demo" "zh-cn" "en" "tags"
      (by decide) (by decide)⟩

/-- C9: the disclaimer block is the template dedicated to the target locale
when one exists (`en`, `zh-cn`, `ja`) and the English template for any other
target locale, and the source URL embedded in it omits the locale segment
exactly when the source locale is the configured default. -/
theorem C9_warning_box_selection (conf : I18nConfig)
    (collection articleId sourceLocale targetLocale : String)
    (h1 : targetLocale ≠ "en") (h2 : targetLocale ≠ "zh-cn") (h3 : targetLocale ≠ "ja") :
    generateSourceUrl conf collection articleId sourceLocale =
      (if sourceLocale = conf.defaultLocale then "/" ++ collection ++ "/" ++ articleId
        else "/" ++ sourceLocale ++ "/" ++ collection ++ "/" ++ articleId)
    ∧ generateWarningBox conf collection articleId sourceLocale "en" =
        enWarning (getLanguageName sourceLocale)
          (generateSourceUrl conf collection articleId sourceLocale)
    ∧ generateWarningBox conf collection articleId sourceLocale "zh-cn" =
        zhWarning (getLanguageName sourceLocale)
          (generateSourceUrl conf collection articleId sourceLocale)
    ∧ generateWarningBox conf collection articleId sourceLocale "ja" =
        jaWarning (getLanguageName sourceLocale)
          (generateSourceUrl conf collection articleId sourceLocale)
    ∧ generateWarningBox conf collection articleId sourceLocale targetLocale =
        enWarning (getLanguageName sourceLocale)
          (generateSourceUrl conf collection articleId sourceLocale) := by
  have hb1 : (targetLocale == "en") = false := by simp [h1]
  have hb2 : (targetLocale == "zh-cn") = false := by simp [h2]
  have hb3 : (targetLocale == "ja") = false := by simp [h3]
  refine ⟨rfl, ?_, ?_, ?_, ?_⟩
  · simp [generateWarningBox, List.lookup, jsOrString]
  · simp [generateWarningBox, List.lookup, jsOrString, zhWarning_ne_empty]
  · simp [generateWarningBox, List.lookup, jsOrString, jaWarning_ne_empty]
  · simp [generateWarningBox, List.lookup, hb1, hb2, hb3, jsOrString]

/-- C9 witness: target locale `"fr"` has no dedicated template and falls back
to the English template. -/
theorem C9_warning_box_selection_witness :
    (("fr" : String) ≠ "en" ∧ ("fr" : String) ≠ "zh-cn" ∧ ("fr" : String) ≠ "ja")
    ∧ (generateSourceUrl siteI18n "note" "demo" "en" =
        (if ("en" : String) = siteI18n.defaultLocale then "/" ++ "note" ++ "/" ++ "demo"
          else "/" ++ "en" ++ "/" ++ "note" ++ "/" ++ "demo")
      ∧ generateWarningBox siteI18n "note" "demo" "en" "en" =
          enWarning (getLanguageName "en") (generateSourceUrl siteI18n "note" "demo" "en")
      ∧ generateWarningBox siteI18n "note" "demo" "en" "zh-cn" =
          zhWarning (getLanguageName "en") (generateSourceUrl siteI18n "note" "demo" "en")
      ∧ generateWarningBox siteI18n "note" "demo" "en" "ja" =
          jaWarning (getLanguageName "en") (generateSourceUrl siteI18n "note" "demo" "en")
      ∧ generateWarningBox siteI18n "note" "demo" "en" "fr" =
          enWarning (getLanguageName "en") (generateSourceUrl siteI18n "note" "demo" "en")) :=
  ⟨⟨by decide, by decide, by decide⟩,
    C9_warning_box_selection siteI18n "note" "demo" "en" "fr" (by decide) (by decide)
      (by decide)⟩

/-- C10: in multi-locale mode an identifier whose final separator-delimited
segment is empty gets the configured default locale from `extractLocaleFromId`
and an absent locale field from `generatePathParams`. -/
theorem C10_empty_final_segment_defaults (conf : I18nConfig) (id : String)
    (hm : monolocale conf = false)
    (hlast : (jsSplit id '/').getLast? = some "") :
    extractLocaleFromId conf id = conf.defaultLocale
    ∧ (generatePathParams conf id).locale = none := by
  have hloc : extractLocaleFromId conf id = conf.defaultLocale := by
    simp [extractLocaleFromId, hlast, jsOrString]
  exact ⟨hloc, by simp [generatePathParams, hm, hloc]⟩

/-- C10 witness: `"a/"` ends with the separator, so its locale defaults and it
routes without a locale prefix. -/
theorem C10_empty_final_segment_defaults_witness :
    (monolocale siteI18n = false ∧ (jsSplit "a/" '/').getLast? = some "")
    ∧ (extractLocaleFromId siteI18n "a/" = siteI18n.defaultLocale
      ∧ (generatePathParams siteI18n "a/").locale = none) :=
  ⟨⟨by decide, by decide⟩,
    C10_empty_final_segment_defaults siteI18n "a/" (by decide) (by decide)⟩

end Blog
